import Mathlib

/-!
Shallow embedding of the hylarana media-mirroring repository's C/C++ core,
together with theorems checking the natural-language specification against it.

Embedded source files:
* `src/codec/lib/video_decode.cpp` — video decoder creation, teardown,
  packet submission and frame readout (FFmpeg calls are modelled as oracles:
  booleans or functions describing the outcome of each external call, while
  the control flow of the repository's own code is translated literally).
* `src/common/frame/include/frame.h` — the `VideoFrame` record.
* `src/devices/lib/devices.c` — capture-backend `init`.
* `src/examples/cpp/src/common.h` — `strategy_from_str` and the string
  splitter `finds` (the same splitter appears as `Args::finds` in
  `src/examples/desktop/main.cpp`).

`std::string` is modelled as `List Char`; `size_t` arithmetic is carried out
in `Nat` with explicit reduction modulo `2 ^ 64` where the C code can wrap.
-/

set_option autoImplicit false

namespace Hylarana

/-! ### size_t arithmetic -/

/-- The modulus of `size_t` (64-bit). -/
def u64 : Nat := 2 ^ 64

/-- `std::string::npos`, i.e. `(size_t)-1`, as a natural number. -/
def npos : Nat := u64 - 1

/-! ### Transport strategies — `src/examples/cpp/src/common.h` -/

/-- The closed strategy set of `HylaranaStrategy`. -/
inductive HylaranaStrategy where
  | STRATEGY_DIRECT
  | STRATEGY_RELAY
  | STRATEGY_MULTICAST
deriving DecidableEq, Repr

/-- `strategy_from_str` from `src/examples/cpp/src/common.h` (lines 86–104).
`throw std::invalid_argument("strategy")` is modelled as `none`. -/
def strategy_from_str (value : String) : Option HylaranaStrategy :=
  if value = "direct" then some .STRATEGY_DIRECT
  else if value = "relay" then some .STRATEGY_RELAY
  else if value = "multicast" then some .STRATEGY_MULTICAST
  else none

/-! ### The string splitter `finds` — `src/examples/cpp/src/common.h` lines
106–123, identical to `Args::finds` in `src/examples/desktop/main.cpp`. -/

/-- Helper for `std::string::find`: the index (counting from `i`) of the
first position of `s` at which `pat` occurs, or `npos` when absent. -/
def strFindAux (pat : List Char) : List Char → Nat → Nat
  | [], i => if pat.isPrefixOf ([] : List Char) then i else npos
  | s@(_ :: t), i => if pat.isPrefixOf s then i else strFindAux pat t (i + 1)

/-- `input.find(delimiter)`: first occurrence index, or `npos`. -/
def strFind (s pat : List Char) : Nat := strFindAux pat s 0

/-- The `while (iter < input.size())` loop of `finds`.  Each iteration does
`iter = input.find(delimiter)`, pushes `input.substr(0, iter)` and then
`input.erase(0, iter + delimiter.length())`; the erase count is a `size_t`
sum, so it wraps modulo `2 ^ 64` when `iter = npos`.  `fuel` bounds the
number of iterations (the C loop has no such bound; every theorem below
supplies enough fuel for the loop to run to completion). -/
def findsLoop (delim : List Char) : Nat → Nat → List Char → List (List Char) →
    List (List Char) × List Char
  | 0, _, input, acc => (acc, input)
  | fuel + 1, iter, input, acc =>
    if iter < input.length then
      let i := strFind input delim
      findsLoop delim fuel i (input.drop ((i + delim.length) % u64))
        (acc ++ [input.take i])
    else (acc, input)

/-- `finds(input, delimiter)` from `src/examples/cpp/src/common.h`: the loop
above followed by `if (input.size() > 0) tokens.push_back(input)`. -/
def finds (input delim : List Char) : List (List Char) :=
  let r := findsLoop delim (input.length + 2) 0 input []
  if 0 < r.2.length then r.1 ++ [r.2] else r.1

/-! ### Video decoder teardown — `codec_release_video_decoder`
(`src/codec/lib/video_decode.cpp` lines 110–144).

The decoder is abstracted to the nullness of its pointer fields; the function
is modelled by the ordered list of release calls it performs. -/

/-- Which pointer fields of a `VideoDecoder` are non-null. -/
structure VideoDecoderPtrs where
  context : Bool
  parser : Bool
  packet : Bool
  frame : Bool
  swFrame : Bool
  hwDeviceCtx : Bool
deriving DecidableEq, Repr

/-- The release calls `codec_release_video_decoder` can perform, in the
order they appear in the source. -/
inductive ReleaseStep where
  | freeContext
  | closeParser
  | freePacket
  | freeFrame
  | freeSwFrame
  | unrefHwDevice
  | deleteOutputFrame
  | deleteCodec
deriving DecidableEq, Repr

/-- `codec_release_video_decoder`: the sequence of release calls, in source
order.  `avcodec_free_context` comes first, then `av_parser_close`,
`av_packet_free`, `av_frame_free` (frame and sw_frame), `av_buffer_unref`
on the hardware device, and finally `delete codec->output_frame` and
`delete codec`. -/
def codec_release_video_decoder (d : VideoDecoderPtrs) : List ReleaseStep :=
  (if d.context then [.freeContext] else []) ++
  (if d.parser then [.closeParser] else []) ++
  (if d.packet then [.freePacket] else []) ++
  (if d.frame then [.freeFrame] else []) ++
  (if d.swFrame then [.freeSwFrame] else []) ++
  (if d.hwDeviceCtx then [.unrefHwDevice] else []) ++
  [.deleteOutputFrame, .deleteCodec]

/-- A decoder whose every pointer field is non-null (the state produced by a
fully successful `codec_create_video_decoder` on the hardware path). -/
def fullDecoderPtrs : VideoDecoderPtrs := ⟨true, true, true, true, true, true⟩

/-- `a` is released strictly before `b` in the trace `t`. -/
def releasedBefore (a b : ReleaseStep) (t : List ReleaseStep) : Prop :=
  t.indexOf a < t.indexOf b

instance (a b : ReleaseStep) (t : List ReleaseStep) :
    Decidable (releasedBefore a b t) := by
  unfold releasedBefore
  infer_instance

/-- Claim C2 instantiated at the fully populated decoder: the hardware
device reference, the packet and frame scratch buffers and the parser state
are all released before the codec context is freed. -/
def scratchBeforeContextClaim : Prop :=
  releasedBefore .unrefHwDevice .freeContext
    (codec_release_video_decoder fullDecoderPtrs) ∧
  releasedBefore .closeParser .freeContext
    (codec_release_video_decoder fullDecoderPtrs) ∧
  releasedBefore .freePacket .freeContext
    (codec_release_video_decoder fullDecoderPtrs) ∧
  releasedBefore .freeFrame .freeContext
    (codec_release_video_decoder fullDecoderPtrs) ∧
  releasedBefore .freeSwFrame .freeContext
    (codec_release_video_decoder fullDecoderPtrs)

instance : Decidable scratchBeforeContextClaim := by
  unfold scratchBeforeContextClaim
  infer_instance

/-! ### Video decoder creation — `codec_create_video_decoder`
(`src/codec/lib/video_decode.cpp` lines 17–108).

Every external FFmpeg call is an oracle boolean recording whether that call
succeeded; the repository's own control flow is translated literally. -/

/-- Outcomes of the external calls made during decoder creation, in the
order the source performs them. -/
structure CreateEnv where
  /-- `avcodec_find_decoder_by_name` returned non-null. -/
  findOk : Bool
  /-- `avcodec_alloc_context3` returned non-null. -/
  allocOk : Bool
  /-- `av_hwdevice_ctx_create` returned `≥ 0` (only consulted on the
  WIN32 `"h264"` path). -/
  hwOk : Bool
  /-- `avcodec_open2` returned `0`. -/
  openOk : Bool
  /-- `avcodec_is_open` returned non-zero. -/
  isOpenOk : Bool
  /-- `av_parser_init` returned non-null. -/
  parserOk : Bool
  /-- `av_packet_alloc` returned non-null. -/
  packetOk : Bool
  /-- `av_frame_alloc` for `codec->frame` returned non-null. -/
  frameOk : Bool
  /-- `av_frame_alloc` for `codec->sw_frame` returned non-null. -/
  swFrameOk : Bool
deriving DecidableEq, Repr

/-- The hardware-device branch is taken exactly on WIN32 with codec name
`"h264"` (`#ifdef WIN32` / `if (decoder == "h264")`). -/
def usesHwDevice (win32 : Bool) (codecName : String) : Bool :=
  win32 && decide (codecName = "h264")

/-- Result of `codec_create_video_decoder`: the returned decoder (its
pointer fields) or `none`, plus whether `codec_release_video_decoder` was
invoked on the partially constructed decoder before returning. -/
structure CreateResult where
  decoder : Option VideoDecoderPtrs
  releaseCalled : Bool
deriving DecidableEq, Repr

/-- Creation with the hardware-path decision already computed.  Each failed
step calls `codec_release_video_decoder(codec)` and returns `nullptr`;
success returns the decoder with every field populated (the hardware device
field exactly on the hardware path). -/
def createVideoDecoderAux (hw : Bool) (env : CreateEnv) : CreateResult :=
  if !env.findOk then ⟨none, true⟩
  else if !env.allocOk then ⟨none, true⟩
  else if hw && !env.hwOk then ⟨none, true⟩
  else if !env.openOk then ⟨none, true⟩
  else if !env.isOpenOk then ⟨none, true⟩
  else if !env.parserOk then ⟨none, true⟩
  else if !env.packetOk then ⟨none, true⟩
  else if !env.frameOk then ⟨none, true⟩
  else if !env.swFrameOk then ⟨none, true⟩
  else ⟨some ⟨true, true, true, true, true, hw⟩, false⟩

/-- `codec_create_video_decoder` from `src/codec/lib/video_decode.cpp`. -/
def codec_create_video_decoder (win32 : Bool) (codecName : String)
    (env : CreateEnv) : CreateResult :=
  createVideoDecoderAux (usesHwDevice win32 codecName) env

/-! ### Packet submission — `codec_video_decoder_send_packet`
(`src/codec/lib/video_decode.cpp` lines 146–179).

`av_parser_parse2` is an abstract stateful parser oracle over a parser-state
type `σ`: given the current state and the remaining `size`, it reports how
many bytes it consumed, the access unit it emitted (if `packet->size` became
non-zero), and its next state.  `avcodec_send_packet` is an abstract decoder
oracle `δ → α → Option δ` (`none` = non-zero return, i.e. failure). -/

/-- One `av_parser_parse2` call: consumed byte count, emitted access unit
(if any) and the parser's next carry-over state. -/
structure ParseStep (σ α : Type) where
  consumed : Nat
  emitted : Option α
  next : σ
deriving Repr

/-- Observable outcome of one `codec_video_decoder_send_packet` call. -/
structure SendOutcome (σ δ α : Type) where
  /-- The C `bool` return value. -/
  ret : Bool
  /-- Parser carry-over state after the call. -/
  parserSt : σ
  /-- Decoder state after the call. -/
  decSt : δ
  /-- Total bytes by which `buf` was advanced. -/
  consumedTotal : Nat
  /-- Access units passed to `avcodec_send_packet`, in order. -/
  submitted : List α
  /-- Access units emitted by the parser, in order. -/
  emittedUnits : List α
  /-- Number of `av_parser_parse2` calls performed. -/
  parseCalls : Nat
  /-- The access unit whose submission failed, when the call returned
  `false`. -/
  failed : Option α
deriving Repr

/-- The `while (size)` loop of `codec_video_decoder_send_packet`.  Each
iteration calls the parser, advances `buf += len; size -= len` (`size_t`
subtraction, wrapping modulo `2 ^ 64`), and, when `codec->packet->size` is
non-zero, submits the emitted unit to the decoder, returning `false` at the
first failed submission.  `fuel` bounds the iteration count (the C loop is
unbounded); `none` means the fuel ran out before the loop finished. -/
def sendLoop {σ δ α : Type} (parse : σ → Nat → ParseStep σ α)
    (send : δ → α → Option δ) (fuel : Nat) (ps : σ) (ds : δ)
    (size ctot : Nat) (subs ems : List α) (calls : Nat) :
    Option (SendOutcome σ δ α) :=
  if size = 0 then some ⟨true, ps, ds, ctot, subs, ems, calls, none⟩
  else
    match fuel with
    | 0 => none
    | fuel + 1 =>
      let r := parse ps size
      let size2 := (size + u64 - r.consumed % u64) % u64
      match r.emitted with
      | none =>
        sendLoop parse send fuel r.next ds size2 (ctot + r.consumed)
          subs ems (calls + 1)
      | some au =>
        match send ds au with
        | none =>
          some ⟨false, r.next, ds, ctot + r.consumed, subs ++ [au],
            ems ++ [au], calls + 1, some au⟩
        | some ds2 =>
          sendLoop parse send fuel r.next ds2 size2 (ctot + r.consumed)
            (subs ++ [au]) (ems ++ [au]) (calls + 1)

/-- `codec_video_decoder_send_packet`: `if (buf == nullptr) return true;`
followed by the parse/submit loop.  `bufNull` records whether the `buf`
argument was null. -/
def codec_video_decoder_send_packet {σ δ α : Type}
    (parse : σ → Nat → ParseStep σ α) (send : δ → α → Option δ)
    (fuel : Nat) (ps : σ) (ds : δ) (bufNull : Bool) (size : Nat) :
    Option (SendOutcome σ δ α) :=
  if bufNull then some ⟨true, ps, ds, 0, [], [], 0, none⟩
  else sendLoop parse send fuel ps ds size 0 [] [] 0

/-- A concrete parser oracle over `σ = α = Nat`: consumes one byte per call
and emits one access unit, numbering its state. -/
def parseOracleW : Nat → Nat → ParseStep Nat Nat :=
  fun p _ => ⟨1, some p, p + 1⟩

/-- A concrete decoder-submission oracle over `δ = Nat` that always
succeeds. -/
def sendOracleW : Nat → Nat → Option Nat := fun d _ => some (d + 1)

/-! ### Frame readout — `codec_video_decoder_read_frame`
(`src/codec/lib/video_decode.cpp` lines 181–210) and the `VideoFrame`
record (`src/common/frame/include/frame.h` lines 22–30). -/

/-- The AVFrame pixel formats this decoder's configuration can yield:
`AV_PIX_FMT_NV12` (the software format pinned by
`codec->context->pix_fmt = AV_PIX_FMT_NV12`) and `AV_PIX_FMT_DXVA2_VLD`
(the hardware-surface format of the DXVA2 device attached on the WIN32
`"h264"` path, the only format the source's GPU test checks). -/
inductive AVPixelFormat where
  | AV_PIX_FMT_NV12
  | AV_PIX_FMT_DXVA2_VLD
deriving DecidableEq, Repr

/-- A pixel format whose frame data is GPU-resident.  For this decoder that
is exactly `AV_PIX_FMT_DXVA2_VLD`. -/
def isGpuFormat : AVPixelFormat → Bool
  | .AV_PIX_FMT_DXVA2_VLD => true
  | .AV_PIX_FMT_NV12 => false

/-- The parts of an FFmpeg `AVFrame` the source reads: dimensions, pixel
format, and the first two plane pointers (addresses abstracted as `Nat`)
with their line sizes. -/
structure AVFrame where
  width : Nat
  height : Nat
  format : AVPixelFormat
  data0 : Nat
  data1 : Nat
  linesize0 : Nat
  linesize1 : Nat
deriving DecidableEq, Repr

/-- `VideoFormat` from `src/common/frame/include/frame.h`; `RGBA` is the
zero (first) member. -/
inductive VideoFormat where
  | RGBA
  | NV12
  | I420
deriving DecidableEq, Repr

/-- `VideoFrame` from `src/common/frame/include/frame.h`: format tag,
hardware-origin flag, dimensions, two plane pointers and line sizes.
(`video_decode.cpp` reaches the dimensions through a `rect` member of its
revision of the struct; the fields are the same.) -/
structure VideoFrame where
  format : VideoFormat
  hardware : Bool
  width : Nat
  height : Nat
  data0 : Nat
  data1 : Nat
  linesize0 : Nat
  linesize1 : Nat
deriving DecidableEq, Repr

/-- The value `new VideoFrame{}` produces (value-initialization zeroes every
member, so the tag is `RGBA` and the hardware flag is `false`). -/
def zeroVideoFrame : VideoFrame := ⟨.RGBA, false, 0, 0, 0, 0, 0, 0⟩

/-- The decoder state `codec_video_decoder_read_frame` reads and writes:
the reusable `output_frame` and the software scratch `sw_frame`. -/
structure VideoDecoderState where
  output_frame : VideoFrame
  sw_frame : AVFrame
deriving Repr

/-- The observable actions of one `read_frame` call whose order matters. -/
inductive ReadStep where
  | transferData
  | copyPlanePointers
deriving DecidableEq, Repr

/-- Result of one `codec_video_decoder_read_frame` call: the returned frame
(`none` models the `nullptr` returns), the decoder's `output_frame` and
`sw_frame` after the call, and the ordered actions performed. -/
structure ReadResult where
  returned : Option VideoFrame
  output_frame : VideoFrame
  sw_frame : AVFrame
  steps : List ReadStep
deriving Repr

/-- `codec_video_decoder_read_frame`.  `recv` is the `avcodec_receive_frame`
oracle (`none` = non-zero return, no frame ready); `transfer` is the
`av_hwframe_transfer_data` oracle, mapping the current `sw_frame` and the
decoded hardware frame to the new contents of `sw_frame` (`none` = the call
returned `< 0`).  The source first writes the output dimensions, then, iff
the decoded frame's format is `AV_PIX_FMT_DXVA2_VLD`, transfers into
`sw_frame`; it then copies `linesize[i]` and `data[i]` for `i < 2` from
`sw_frame` on the hardware path and from `frame` otherwise. -/
def codec_video_decoder_read_frame (st : VideoDecoderState)
    (recv : Option AVFrame) (transfer : AVFrame → AVFrame → Option AVFrame) :
    ReadResult :=
  match recv with
  | none => ⟨none, st.output_frame, st.sw_frame, []⟩
  | some f =>
    let out1 : VideoFrame :=
      { st.output_frame with width := f.width, height := f.height }
    if f.format = .AV_PIX_FMT_DXVA2_VLD then
      match transfer st.sw_frame f with
      | none => ⟨none, out1, st.sw_frame, [.transferData]⟩
      | some sw2 =>
        let out2 : VideoFrame :=
          { out1 with linesize0 := sw2.linesize0, data0 := sw2.data0,
                      linesize1 := sw2.linesize1, data1 := sw2.data1 }
        ⟨some out2, out2, sw2, [.transferData, .copyPlanePointers]⟩
    else
      let out2 : VideoFrame :=
        { out1 with linesize0 := f.linesize0, data0 := f.data0,
                    linesize1 := f.linesize1, data1 := f.data1 }
      ⟨some out2, out2, st.sw_frame, [.copyPlanePointers]⟩

/-! ### Capture backend startup — `init` (`src/devices/lib/devices.c`
lines 10–45).

The libobs backend is modelled by a state (whether `obs_startup` has
succeeded, plus the active video configuration) and an oracle for the
outcomes of `obs_startup` and `obs_reset_video`. -/

/-- The `VideoInfo` argument of `init` (fps, width, height, output pixel
format, the format abstracted to a number). -/
structure VideoInfo where
  fps : Nat
  width : Nat
  height : Nat
  format : Nat
deriving DecidableEq, Repr

/-- The fields of `struct obs_video_info` that `init` fills from its
argument. -/
structure ObsVideoInfo where
  fps_num : Nat
  fps_den : Nat
  base_width : Nat
  base_height : Nat
  output_width : Nat
  output_height : Nat
  output_format : Nat
deriving DecidableEq, Repr

/-- The video configuration `init` builds: `fps_num = info->fps`,
`fps_den = 1`, base and output dimensions both from `info`, and the output
format from `info`. -/
def mkObsVideoInfo (info : VideoInfo) : ObsVideoInfo :=
  ⟨info.fps, 1, info.width, info.height, info.width, info.height,
    info.format⟩

/-- Modelled libobs backend state: `obs_initialized()` reports
`initialized`; `videoConfig` is the configuration installed by the last
successful `obs_reset_video`. -/
structure ObsState where
  initialized : Bool
  videoConfig : Option ObsVideoInfo
deriving DecidableEq, Repr

/-- Oracle for the two fallible libobs calls `init` makes. -/
structure ObsEnv where
  startupOk : Bool
  resetOk : Bool
deriving DecidableEq, Repr

/-- The libobs calls `init` can make, in source order. -/
inductive ObsCall where
  | startup
  | resetVideo
  | loadAllModules
  | postLoadModules
deriving DecidableEq, Repr

/-- Result of one `init` call: the C return code, the backend state after
the call, and the backend calls performed. -/
structure InitResult where
  code : Int
  state : ObsState
  calls : List ObsCall
deriving DecidableEq, Repr

/-- `init` from `src/devices/lib/devices.c`: fail with `-1` when
`obs_initialized()`, else `obs_startup` (`-2` on failure, marks the backend
initialized on success), else `obs_reset_video` (`-3` on failure), else
`obs_load_all_modules(); obs_post_load_modules();` and return `0`. -/
def init (info : VideoInfo) (st : ObsState) (env : ObsEnv) : InitResult :=
  if st.initialized then ⟨-1, st, []⟩
  else if !env.startupOk then ⟨-2, st, [.startup]⟩
  else
    let st1 : ObsState := { st with initialized := true }
    if !env.resetOk then ⟨-3, st1, [.startup, .resetVideo]⟩
    else ⟨0, { st1 with videoConfig := some (mkObsVideoInfo info) },
      [.startup, .resetVideo, .loadAllModules, .postLoadModules]⟩

/-- The transfer oracle that succeeds and fills `sw_frame` with the decoded
frame's content (the behaviour of a successful `av_hwframe_transfer_data`,
which copies the hardware frame's data into the destination frame). -/
def idTransfer : AVFrame → AVFrame → Option AVFrame := fun _ src => some src

/-- A software NV12 frame as decoded from an h264 stream at 1280×720. -/
def c3DecodedFrame : AVFrame :=
  ⟨1280, 720, .AV_PIX_FMT_NV12, 4096, 8192, 1280, 1280⟩

/-- The decoder state right after `codec_create_video_decoder`:
`output_frame` is the value-initialized `new VideoFrame{}`. -/
def freshDecoderState : VideoDecoderState :=
  ⟨zeroVideoFrame, ⟨0, 0, .AV_PIX_FMT_NV12, 0, 0, 0, 0⟩⟩

/-- A GPU-resident (DXVA2 surface) decoded frame. -/
def c6HwFrame : AVFrame := ⟨1280, 720, .AV_PIX_FMT_DXVA2_VLD, 1, 2, 3, 4⟩

/-- Claim C6 as stated: the returned frame's hardware-origin flag is set
exactly when the decoded frame resided in GPU memory. -/
def hardwareFlagClaim : Prop :=
  ∀ (st : VideoDecoderState) (f : AVFrame)
    (transfer : AVFrame → AVFrame → Option AVFrame) (out : VideoFrame),
    (codec_video_decoder_read_frame st (some f) transfer).returned =
      some out →
    out.hardware = isGpuFormat f.format

/-! ## Theorems -/

/-! ### C9 — `strategy_from_str` parses the closed strategy set -/

/-- C9: `strategy_from_str` maps exactly `"direct"`, `"relay"` and
`"multicast"` to `STRATEGY_DIRECT`, `STRATEGY_RELAY` and
`STRATEGY_MULTICAST` respectively, and rejects (throws, modelled `none`)
every other input string. -/
theorem strategy_from_str_closed_set (value : String) :
    (value = "direct" →
      strategy_from_str value = some .STRATEGY_DIRECT) ∧
    (value = "relay" →
      strategy_from_str value = some .STRATEGY_RELAY) ∧
    (value = "multicast" →
      strategy_from_str value = some .STRATEGY_MULTICAST) ∧
    (value ≠ "direct" → value ≠ "relay" → value ≠ "multicast" →
      strategy_from_str value = none) := by
  refine ⟨fun h => ?_, fun h => ?_, fun h => ?_, fun h1 h2 h3 => ?_⟩
  · simp [strategy_from_str, h]
  · simp [strategy_from_str, h]
  · simp [strategy_from_str, h]
  · simp [strategy_from_str, h1, h2, h3]

/-- Witness for C9 at the concrete inputs `"direct"` and `"udp"`. -/
theorem strategy_from_str_closed_set_witness :
    strategy_from_str "direct" = some .STRATEGY_DIRECT ∧
    strategy_from_str "udp" = none :=
  ⟨(strategy_from_str_closed_set "direct").1 rfl,
    (strategy_from_str_closed_set "udp").2.2.2 (by decide) (by decide)
      (by decide)⟩

/-! ### C2 — teardown order of `codec_release_video_decoder` -/

/-- C2 counterexample: on the fully populated decoder, it is not the case
that the hardware device reference, the scratch buffers and the parser
state are released before the codec context is freed — the source frees the
context first. -/
theorem release_order_counterexample : ¬ scratchBeforeContextClaim := by
  decide

/-- C2 (amended): `codec_release_video_decoder` frees the codec context
*first*; afterwards it closes the parser, frees the packet, frame and
software-frame scratch buffers and unrefs the hardware device reference,
and the output frame and the decoder object itself are deleted last. -/
theorem release_context_first (a b c d e f : Bool) :
    ((codec_release_video_decoder ⟨a, b, c, d, e, f⟩).getLast? =
      some .deleteCodec) ∧
    (ReleaseStep.deleteOutputFrame ∈
      codec_release_video_decoder ⟨a, b, c, d, e, f⟩) ∧
    releasedBefore .deleteOutputFrame .deleteCodec
      (codec_release_video_decoder ⟨a, b, c, d, e, f⟩) ∧
    (a = true →
      (codec_release_video_decoder ⟨a, b, c, d, e, f⟩).head? =
        some .freeContext) ∧
    (b = true →
      ReleaseStep.closeParser ∈ codec_release_video_decoder ⟨a, b, c, d, e, f⟩ ∧
      (a = true → releasedBefore .freeContext .closeParser
        (codec_release_video_decoder ⟨a, b, c, d, e, f⟩)) ∧
      releasedBefore .closeParser .deleteOutputFrame
        (codec_release_video_decoder ⟨a, b, c, d, e, f⟩)) ∧
    (c = true →
      ReleaseStep.freePacket ∈ codec_release_video_decoder ⟨a, b, c, d, e, f⟩ ∧
      (a = true → releasedBefore .freeContext .freePacket
        (codec_release_video_decoder ⟨a, b, c, d, e, f⟩)) ∧
      releasedBefore .freePacket .deleteOutputFrame
        (codec_release_video_decoder ⟨a, b, c, d, e, f⟩)) ∧
    (d = true →
      ReleaseStep.freeFrame ∈ codec_release_video_decoder ⟨a, b, c, d, e, f⟩ ∧
      (a = true → releasedBefore .freeContext .freeFrame
        (codec_release_video_decoder ⟨a, b, c, d, e, f⟩)) ∧
      releasedBefore .freeFrame .deleteOutputFrame
        (codec_release_video_decoder ⟨a, b, c, d, e, f⟩)) ∧
    (e = true →
      ReleaseStep.freeSwFrame ∈ codec_release_video_decoder ⟨a, b, c, d, e, f⟩ ∧
      (a = true → releasedBefore .freeContext .freeSwFrame
        (codec_release_video_decoder ⟨a, b, c, d, e, f⟩)) ∧
      releasedBefore .freeSwFrame .deleteOutputFrame
        (codec_release_video_decoder ⟨a, b, c, d, e, f⟩)) ∧
    (f = true →
      ReleaseStep.unrefHwDevice ∈ codec_release_video_decoder ⟨a, b, c, d, e, f⟩ ∧
      (a = true → releasedBefore .freeContext .unrefHwDevice
        (codec_release_video_decoder ⟨a, b, c, d, e, f⟩)) ∧
      releasedBefore .unrefHwDevice .deleteOutputFrame
        (codec_release_video_decoder ⟨a, b, c, d, e, f⟩)) := by
  cases a <;> cases b <;> cases c <;> cases d <;> cases e <;> cases f <;>
    exact ⟨by decide, by decide, by decide, by decide, by decide, by decide,
      by decide, by decide, by decide⟩

/-- Witness for C2's amended theorem at the fully populated decoder. -/
theorem release_context_first_witness :
    (codec_release_video_decoder ⟨true, true, true, true, true, true⟩).head? =
      some .freeContext ∧
    releasedBefore .freeContext .closeParser
      (codec_release_video_decoder ⟨true, true, true, true, true, true⟩) :=
  ⟨(release_context_first true true true true true true).2.2.2.1 rfl,
    ((release_context_first true true true true true true).2.2.2.2.1
      rfl).2.1 rfl⟩

/-! ### C7 — `codec_create_video_decoder` succeeds iff every step does -/

/-- Helper for C7, with the hardware-path decision and the environment
expanded into booleans so the statement is decidable. -/
theorem createAux_spec (hw f a h o i p k fr sw : Bool) :
    (createVideoDecoderAux hw ⟨f, a, h, o, i, p, k, fr, sw⟩).decoder.isSome =
      (f && a && (!hw || h) && o && i && p && k && fr && sw) ∧
    (createVideoDecoderAux hw ⟨f, a, h, o, i, p, k, fr, sw⟩).releaseCalled =
      !(createVideoDecoderAux hw ⟨f, a, h, o, i, p, k, fr, sw⟩).decoder.isSome := by
  revert hw f a h o i p k fr sw
  decide

/-- C7: creation returns a decoder exactly when the codec lookup, context
allocation, hardware device acquisition (when attempted), open, open-check,
parser initialization, and the packet/frame/software-frame allocations all
succeed; and `codec_release_video_decoder` is invoked on the partially
constructed decoder exactly when creation fails. -/
theorem create_video_decoder_success_iff (win32 : Bool) (codecName : String)
    (env : CreateEnv) :
    (codec_create_video_decoder win32 codecName env).decoder.isSome =
      (env.findOk && env.allocOk &&
        (!(usesHwDevice win32 codecName) || env.hwOk) && env.openOk &&
        env.isOpenOk && env.parserOk && env.packetOk && env.frameOk &&
        env.swFrameOk) ∧
    (codec_create_video_decoder win32 codecName env).releaseCalled =
      !(codec_create_video_decoder win32 codecName env).decoder.isSome := by
  cases env
  exact createAux_spec (usesHwDevice win32 codecName) _ _ _ _ _ _ _ _ _

/-! ### C5 — null/empty submission is a successful no-op -/

/-- C5: `codec_video_decoder_send_packet` with a null buffer or a zero
size returns `true`, performs no parser call and no decoder submission, and
leaves the parser and decoder states unchanged. -/
theorem send_packet_noop {σ δ α : Type} (parse : σ → Nat → ParseStep σ α)
    (send : δ → α → Option δ) (fuel : Nat) (ps : σ) (ds : δ)
    (bufNull : Bool) (size : Nat) (h : bufNull = true ∨ size = 0) :
    codec_video_decoder_send_packet parse send fuel ps ds bufNull size =
      some ⟨true, ps, ds, 0, [], [], 0, none⟩ := by
  rcases h with h | h
  · simp [codec_video_decoder_send_packet, h]
  · subst h
    cases bufNull
    · simp only [codec_video_decoder_send_packet, Bool.false_eq_true,
        if_false]
      cases fuel <;> rfl
    · simp [codec_video_decoder_send_packet]

/-- Witness for C5: a null-buffer call on concrete oracles. -/
theorem send_packet_noop_witness :
    codec_video_decoder_send_packet
      (fun (ps : Unit) (_ : Nat) => (⟨1, none, ps⟩ : ParseStep Unit Unit))
      (fun (ds : Unit) (_ : Unit) => some ds) 5 () () true 7 =
      some ⟨true, (), (), 0, [], [], 0, none⟩ :=
  send_packet_noop _ _ 5 () () true 7 (Or.inl rfl)

/-! ### C4 — the submission loop consumes the whole buffer -/

/-- Unfolding `sendLoop` at size zero: the loop exits at once with success,
independently of the remaining fuel. -/
theorem sendLoop_size_zero {σ δ α : Type} (parse : σ → Nat → ParseStep σ α)
    (send : δ → α → Option δ) (fuel : Nat) (ps : σ) (ds : δ) (ctot : Nat)
    (subs ems : List α) (calls : Nat) :
    sendLoop parse send fuel ps ds 0 ctot subs ems calls =
      some ⟨true, ps, ds, ctot, subs, ems, calls, none⟩ := by
  cases fuel <;> rfl

/-- Unfolding one iteration of `sendLoop` at non-zero size. -/
theorem sendLoop_step {σ δ α : Type} (parse : σ → Nat → ParseStep σ α)
    (send : δ → α → Option δ) (fuel : Nat) (ps : σ) (ds : δ)
    (size ctot : Nat) (subs ems : List α) (calls : Nat) (h : size ≠ 0) :
    sendLoop parse send (fuel + 1) ps ds size ctot subs ems calls =
      (match (parse ps size).emitted with
       | none =>
         sendLoop parse send fuel (parse ps size).next ds
           ((size + u64 - (parse ps size).consumed % u64) % u64)
           (ctot + (parse ps size).consumed) subs ems (calls + 1)
       | some au =>
         match send ds au with
         | none =>
           some ⟨false, (parse ps size).next, ds,
             ctot + (parse ps size).consumed, subs ++ [au], ems ++ [au],
             calls + 1, some au⟩
         | some ds2 =>
           sendLoop parse send fuel (parse ps size).next ds2
             ((size + u64 - (parse ps size).consumed % u64) % u64)
             (ctot + (parse ps size).consumed) (subs ++ [au]) (ems ++ [au])
             (calls + 1)) := by
  rw [sendLoop]
  simp [h]

/-- The `size_t` subtraction `size -= len` does not wrap when the parser
consumed at most `size` bytes and `size` fits in 64 bits. -/
theorem size_sub_mod (s c : Nat) (h1 : c ≤ s) (h2 : s < u64) :
    (s + u64 - c % u64) % u64 = s - c := by
  have hpow : u64 = 18446744073709551616 := by
    unfold u64
    norm_num
  rw [hpow] at h2 ⊢
  omega

/-- Loop invariant for `sendLoop`: when the parser always makes progress
and never over-consumes, and every submission succeeds, the loop terminates
within `size` iterations, returns `true`, consumes exactly the remaining
bytes, and submits exactly the units the parser emitted. -/
theorem sendLoop_success {σ δ α : Type} (parse : σ → Nat → ParseStep σ α)
    (send : δ → α → Option δ)
    (hc : ∀ p s, 0 < s → 0 < (parse p s).consumed ∧ (parse p s).consumed ≤ s)
    (hs : ∀ d au, (send d au).isSome = true) :
    ∀ fuel size, size < fuel → size < u64 →
      ∀ (ps : σ) (ds : δ) (ctot : Nat) (subs ems : List α) (calls : Nat),
      ∃ o, sendLoop parse send fuel ps ds size ctot subs ems calls = some o ∧
        o.ret = true ∧ o.consumedTotal = ctot + size ∧ o.failed = none ∧
        (subs = ems → o.submitted = o.emittedUnits) := by
  intro fuel
  induction fuel with
  | zero => intro size h; omega
  | succ fuel ih =>
    intro size hlt hu ps ds ctot subs ems calls
    by_cases hz : size = 0
    · subst hz
      refine ⟨_, sendLoop_size_zero parse send _ ps ds ctot subs ems calls,
        rfl, by simp, rfl, ?_⟩
      intro hse
      simpa using hse
    · obtain ⟨hpos, hle⟩ := hc ps size (Nat.pos_of_ne_zero hz)
      rw [sendLoop_step parse send fuel ps ds size ctot subs ems calls hz]
      simp only [size_sub_mod size (parse ps size).consumed hle hu]
      cases hem : (parse ps size).emitted with
      | none =>
        obtain ⟨o, ho, hret, hcons, hfail, hse⟩ :=
          ih (size - (parse ps size).consumed) (by omega) (by omega)
            (parse ps size).next ds (ctot + (parse ps size).consumed)
            subs ems (calls + 1)
        refine ⟨o, ?_, hret, by rw [hcons]; omega, hfail, hse⟩
        simpa [hem] using ho
      | some au =>
        have hsend := hs ds au
        cases hsd : send ds au with
        | none => rw [hsd] at hsend; simp at hsend
        | some ds2 =>
          obtain ⟨o, ho, hret, hcons, hfail, hse⟩ :=
            ih (size - (parse ps size).consumed) (by omega) (by omega)
              (parse ps size).next ds2 (ctot + (parse ps size).consumed)
              (subs ++ [au]) (ems ++ [au]) (calls + 1)
          refine ⟨o, ?_, hret, by rw [hcons]; omega, hfail, ?_⟩
          · simpa [hem, hsd] using ho
          · intro h0
            exact hse (by rw [h0])

/-- `sendLoop` reports `false` exactly when one of the parsed access units
was submitted to the decoder and the submission failed. -/
theorem sendLoop_false_iff {σ δ α : Type} (parse : σ → Nat → ParseStep σ α)
    (send : δ → α → Option δ) :
    ∀ (fuel : Nat) (ps : σ) (ds : δ) (size ctot : Nat) (subs ems : List α)
      (calls : Nat) (o : SendOutcome σ δ α),
      sendLoop parse send fuel ps ds size ctot subs ems calls = some o →
      (o.ret = false ↔ ∃ au, o.failed = some au ∧ au ∈ o.submitted ∧
        send o.decSt au = none) := by
  intro fuel
  induction fuel with
  | zero =>
    intro ps ds size ctot subs ems calls o h
    by_cases hz : size = 0
    · subst hz
      rw [sendLoop_size_zero] at h
      obtain rfl := Option.some.inj h
      simp
    · rw [sendLoop] at h
      simp [hz] at h
  | succ fuel ih =>
    intro ps ds size ctot subs ems calls o h
    by_cases hz : size = 0
    · subst hz
      rw [sendLoop_size_zero] at h
      obtain rfl := Option.some.inj h
      simp
    · rw [sendLoop_step parse send fuel ps ds size ctot subs ems calls hz]
        at h
      cases hem : (parse ps size).emitted with
      | none =>
        rw [hem] at h
        exact ih _ _ _ _ _ _ _ _ h
      | some au =>
        simp only [hem] at h
        cases hsd : send ds au with
        | none =>
          simp only [hsd] at h
          obtain rfl := Option.some.inj h
          exact Iff.intro (fun _ => ⟨au, rfl, by simp, hsd⟩) (fun _ => rfl)
        | some ds2 =>
          simp only [hsd] at h
          exact ih _ _ _ _ _ _ _ _ h

/-- C4: with a non-null buffer, provided the parser makes progress and
never consumes more than the remaining bytes (`hc`), the loop of
`codec_video_decoder_send_packet` runs until the whole byte range is
consumed — each iteration advancing by the parser's consumed count — every
complete access unit the parser emits is submitted to the decoder, and the
call returns `true` when every submission succeeds; the call returns
`false` exactly when the submission of one of the parsed units failed. -/
theorem send_packet_consumes_all {σ δ α : Type}
    (parse : σ → Nat → ParseStep σ α) (send : δ → α → Option δ)
    (ps : σ) (ds : δ) (fuel size : Nat)
    (hc : ∀ p s, 0 < s → 0 < (parse p s).consumed ∧ (parse p s).consumed ≤ s)
    (hfuel : size < fuel) (hsize : size < u64) :
    ((∀ d au, (send d au).isSome = true) →
      ∃ o, codec_video_decoder_send_packet parse send fuel ps ds false size =
          some o ∧
        o.ret = true ∧ o.consumedTotal = size ∧
        o.submitted = o.emittedUnits ∧ o.failed = none) ∧
    (∀ o, codec_video_decoder_send_packet parse send fuel ps ds false size =
        some o →
      (o.ret = false ↔ ∃ au, o.failed = some au ∧ au ∈ o.submitted ∧
        send o.decSt au = none)) := by
  constructor
  · intro hs
    obtain ⟨o, ho, hret, hcons, hfail, hse⟩ :=
      sendLoop_success parse send hc hs fuel size hfuel hsize ps ds 0 [] [] 0
    refine ⟨o, ?_, hret, by rw [hcons]; omega, hse rfl, hfail⟩
    simpa [codec_video_decoder_send_packet] using ho
  · intro o ho
    refine sendLoop_false_iff parse send fuel ps ds size 0 [] [] 0 o ?_
    simpa [codec_video_decoder_send_packet] using ho

/-- Witness for C4 on concrete oracles: a two-byte buffer with a parser
that consumes one byte per call. -/
theorem send_packet_consumes_all_witness :
    ((∀ d au, (sendOracleW d au).isSome = true) →
      ∃ o, codec_video_decoder_send_packet parseOracleW sendOracleW 3 0 0
          false 2 = some o ∧
        o.ret = true ∧ o.consumedTotal = 2 ∧
        o.submitted = o.emittedUnits ∧ o.failed = none) ∧
    (∀ o, codec_video_decoder_send_packet parseOracleW sendOracleW 3 0 0
        false 2 = some o →
      (o.ret = false ↔ ∃ au, o.failed = some au ∧ au ∈ o.submitted ∧
        sendOracleW o.decSt au = none)) :=
  send_packet_consumes_all parseOracleW sendOracleW 0 0 3 2
    (fun _ s hs => ⟨Nat.one_pos, hs⟩) (by norm_num)
    (by unfold u64; norm_num)

/-! ### C8 — capture backend `init` re-entrancy -/

/-- C8: calling `init` while the backend is already initialized returns the
already-initialized error `-1`, performs no backend call and leaves the
state unchanged; and when `init` returns `0` the backend was previously
uninitialized, is initialized afterwards, startup and video configuration
were performed, and a repeated `init` on the resulting state fails with
`-1` and performs nothing. -/
theorem init_reentrancy (info : VideoInfo) (st : ObsState) (env : ObsEnv) :
    (st.initialized = true → init info st env = ⟨-1, st, []⟩) ∧
    ((init info st env).code = 0 →
      st.initialized = false ∧
      (init info st env).state.initialized = true ∧
      (init info st env).calls =
        [.startup, .resetVideo, .loadAllModules, .postLoadModules] ∧
      init info (init info st env).state env =
        ⟨-1, (init info st env).state, []⟩) := by
  obtain ⟨i, vc⟩ := st
  obtain ⟨s, r⟩ := env
  cases i <;> cases s <;> cases r <;> simp [init]

/-- Witness for C8: re-entrant `init` on an initialized backend. -/
theorem init_reentrancy_witness :
    init ⟨30, 1280, 720, 0⟩ ⟨true, none⟩ ⟨true, true⟩ =
      ⟨-1, ⟨true, none⟩, []⟩ :=
  (init_reentrancy ⟨30, 1280, 720, 0⟩ ⟨true, none⟩ ⟨true, true⟩).1 rfl

/-! ### C3 — the returned frame's pixel-layout tag -/

/-- C3 (evaluation at the failing input): reading the first decoded
1280×720 NV12 frame on a freshly created decoder yields a `VideoFrame`
whose width and height are the picture's, but whose pixel-layout tag is
`RGBA` — the zero-initialized value, which `read_frame` never overwrites —
not `NV12` as the specification states. -/
theorem read_frame_format_tag_stays_rgba :
    (codec_video_decoder_read_frame freshDecoderState (some c3DecodedFrame)
        idTransfer).returned =
      some ⟨.RGBA, false, 1280, 720, 4096, 8192, 1280, 1280⟩ := by
  rfl

/-! ### C1 — returned plane pointers are CPU-readable -/

/-- C1: for every frame `read_frame` returns, if the decoded frame's pixel
format indicates GPU-resident memory then the data was transferred into the
software scratch frame before the plane pointers were copied, and the
returned pointers are the software frame's; otherwise the pointers are the
(software) decoded frame's.  Either way the exposed pointers reference
CPU-readable memory. -/
theorem read_frame_cpu_readable (st : VideoDecoderState)
    (recv : Option AVFrame)
    (transfer : AVFrame → AVFrame → Option AVFrame) (out : VideoFrame)
    (h : (codec_video_decoder_read_frame st recv transfer).returned =
      some out) :
    ∃ f, recv = some f ∧
      (isGpuFormat f.format = true →
        ∃ sw2, transfer st.sw_frame f = some sw2 ∧
          out.data0 = sw2.data0 ∧ out.data1 = sw2.data1 ∧
          (codec_video_decoder_read_frame st recv transfer).steps =
            [.transferData, .copyPlanePointers]) ∧
      (isGpuFormat f.format = false →
        out.data0 = f.data0 ∧ out.data1 = f.data1) := by
  cases recv with
  | none => simp [codec_video_decoder_read_frame] at h
  | some f =>
    refine ⟨f, rfl, ?_, ?_⟩ <;> intro hfmt
    · have hdx : f.format = .AV_PIX_FMT_DXVA2_VLD := by
        cases hf : f.format <;> simp [hf, isGpuFormat] at hfmt ⊢
      cases htr : transfer st.sw_frame f with
      | none =>
        simp [codec_video_decoder_read_frame, hdx, htr] at h
      | some sw2 =>
        refine ⟨sw2, rfl, ?_⟩
        simp [codec_video_decoder_read_frame, hdx, htr] at h ⊢
        subst h
        simp
    · have hdx : f.format ≠ .AV_PIX_FMT_DXVA2_VLD := by
        cases hf : f.format <;> simp [hf, isGpuFormat] at hfmt ⊢
      simp [codec_video_decoder_read_frame, hdx] at h
      subst h
      simp

/-- Witness for C1 at a GPU-resident (DXVA2) decoded frame on a fresh
decoder, with a succeeding transfer oracle. -/
theorem read_frame_cpu_readable_witness :
    ∃ f, (some c6HwFrame : Option AVFrame) = some f ∧
      (isGpuFormat f.format = true →
        ∃ sw2, idTransfer freshDecoderState.sw_frame f = some sw2 ∧
          (⟨.RGBA, false, 1280, 720, 1, 2, 3, 4⟩ : VideoFrame).data0 =
            sw2.data0 ∧
          (⟨.RGBA, false, 1280, 720, 1, 2, 3, 4⟩ : VideoFrame).data1 =
            sw2.data1 ∧
          (codec_video_decoder_read_frame freshDecoderState (some c6HwFrame)
            idTransfer).steps = [.transferData, .copyPlanePointers]) ∧
      (isGpuFormat f.format = false →
        (⟨.RGBA, false, 1280, 720, 1, 2, 3, 4⟩ : VideoFrame).data0 =
          f.data0 ∧
        (⟨.RGBA, false, 1280, 720, 1, 2, 3, 4⟩ : VideoFrame).data1 =
          f.data1) :=
  read_frame_cpu_readable freshDecoderState (some c6HwFrame) idTransfer
    ⟨.RGBA, false, 1280, 720, 1, 2, 3, 4⟩ rfl

/-! ### C6 — the hardware-origin flag -/

/-- C6 counterexample: on a fresh decoder, reading a DXVA2 hardware frame
(with the transfer succeeding) returns a frame whose hardware flag is
`false`, so the flag is not preserved. -/
theorem hardware_flag_counterexample : ¬ hardwareFlagClaim := by
  intro hclaim
  have h := hclaim freshDecoderState c6HwFrame idTransfer
    ⟨.RGBA, false, 1280, 720, 1, 2, 3, 4⟩ rfl
  simp [c6HwFrame, isGpuFormat] at h

/-- C6 (amended): `read_frame` never writes the hardware-origin flag (nor
the format tag): the returned frame carries whatever value the decoder's
`output_frame` already stored — `false` from the value-initialization at
creation — even when the decoded frame resided in GPU memory. -/
theorem read_frame_hardware_flag_never_written (st : VideoDecoderState)
    (recv : Option AVFrame)
    (transfer : AVFrame → AVFrame → Option AVFrame) (out : VideoFrame)
    (h : (codec_video_decoder_read_frame st recv transfer).returned =
      some out) :
    out.hardware = st.output_frame.hardware ∧
    out.format = st.output_frame.format := by
  cases recv with
  | none => simp [codec_video_decoder_read_frame] at h
  | some f =>
    by_cases hdx : f.format = .AV_PIX_FMT_DXVA2_VLD
    · cases htr : transfer st.sw_frame f with
      | none => simp [codec_video_decoder_read_frame, hdx, htr] at h
      | some sw2 =>
        simp [codec_video_decoder_read_frame, hdx, htr] at h
        subst h
        simp
    · simp [codec_video_decoder_read_frame, hdx] at h
      subst h
      simp

/-- Witness for C6's amended theorem at the GPU frame on a fresh decoder. -/
theorem read_frame_hardware_flag_never_written_witness :
    (⟨.RGBA, false, 1280, 720, 1, 2, 3, 4⟩ : VideoFrame).hardware =
      freshDecoderState.output_frame.hardware ∧
    (⟨.RGBA, false, 1280, 720, 1, 2, 3, 4⟩ : VideoFrame).format =
      freshDecoderState.output_frame.format :=
  read_frame_hardware_flag_never_written freshDecoderState (some c6HwFrame)
    idTransfer ⟨.RGBA, false, 1280, 720, 1, 2, 3, 4⟩ rfl

/-! ### C10 — `finds` on an input with no delimiter occurrence -/

/-- When `c` does not occur in `s`, the find helper reports `npos`
whatever the starting index. -/
theorem strFindAux_not_mem (c : Char) :
    ∀ (s : List Char) (i : Nat), c ∉ s → strFindAux [c] s i = npos := by
  intro s
  induction s with
  | nil => intro i _; rfl
  | cons a t ih =>
    intro i h
    have hne : (c == a) = false := by
      simp only [beq_eq_false_iff_ne, ne_eq]
      intro hEq
      exact h (by simp [hEq])
    have ht : c ∉ t := fun hm => h (List.mem_cons_of_mem _ hm)
    have hpre : ([c].isPrefixOf (a :: t)) = false := by
      simp [List.isPrefixOf, hne]
    show (if [c].isPrefixOf (a :: t) then i else strFindAux [c] t (i + 1)) =
      npos
    rw [hpre]
    simpa using ih (i + 1) ht

/-- `input.find(delimiter)` is `npos` when the single-character delimiter
does not occur in the input. -/
theorem strFind_not_mem (s : List Char) (c : Char) (h : c ∉ s) :
    strFind s [c] = npos :=
  strFindAux_not_mem c s 0 h

/-- C10: on a non-empty input containing no occurrence of a
single-character delimiter, `finds` returns exactly two tokens, both equal
to the whole input: the scan loop pushes the whole input once (the find
returns `npos`, the take keeps everything, and `npos + 1` wraps to `0` so
the erase removes nothing), the loop then exits because `npos` is not less
than the input length, and the trailing non-empty-remainder check pushes
the input a second time. -/
theorem finds_no_delimiter (input : List Char) (c : Char)
    (hne : input ≠ []) (hlen : input.length ≤ npos) (hmem : c ∉ input) :
    finds input [c] = [input, input] := by
  have hfind : strFind input [c] = npos := strFind_not_mem input c hmem
  have hpos : 0 < input.length := List.length_pos.mpr hne
  have htake : input.take npos = input := List.take_of_length_le hlen
  have hmod : (npos + (1 : Nat)) % u64 = 0 := by
    have h1 : npos + 1 = u64 := by
      unfold npos u64
      norm_num
    rw [h1, Nat.mod_self]
  have hstep1 : findsLoop [c] (input.length + 2) 0 input [] =
      findsLoop [c] (input.length + 1) npos input [input] := by
    have h2 : input.length + 2 = (input.length + 1) + 1 := rfl
    rw [h2, findsLoop]
    simp [hpos, hfind, List.length_singleton, hmod, htake]
  have hstep2 : findsLoop [c] (input.length + 1) npos input [input] =
      ([input], input) := by
    rw [findsLoop]
    simp [Nat.not_lt.mpr hlen]
  unfold finds
  rw [hstep1, hstep2]
  simp [hpos]

/-- Witness for C10 at the concrete input `"ab"` with delimiter `":"`. -/
theorem finds_no_delimiter_witness :
    (['a', 'b'] : List Char) ≠ [] ∧
    finds ['a', 'b'] [':'] = [['a', 'b'], ['a', 'b']] :=
  ⟨by decide,
    finds_no_delimiter ['a', 'b'] ':' (by decide) (by decide) (by decide)⟩

end Hylarana
